import Mathlib

/-!
Verification of the resilient request-execution and pagination engine of the
atlassian-graphql client library.

The Python sources are shallowly embedded:
  * `client.py` (`GraphQLClient.execute`)   → `execute_loop` / `GraphQLClient.execute`
  * `jira_rest_client.py` (`get_json`)      → `get_json_loop`
  * `jira_projects.py` (cursor pagination)  → `next_after_from_pageinfo`,
    `outer_projects_loop`, `paginate_opsgenie_teams_loop`
  * `jira_rest_projects.py` / `jira_rest_issues.py` (offset pagination)
    → `iter_projects_via_rest_loop`, `rest_offset_decision`, `issues_offset_decision`
  * `mappers/jira_projects_mapper.py`       → `map_project_with_opsgenie_teams`

Time is modelled as a rational number of seconds; the injectable clock and
sleeper of the source are modelled by threading a current time through the
state and recording each sleep in a trace.  The HTTP transport is modelled by
a script (list) of responses, one consumed per issued request.
-/

namespace AtlGql

/-- Shape of `RateLimitError` (errors.py): the fields the constructor stores. -/
structure RateLimitErr where
  retry_after : Option ℚ
  attempts : Nat
  header_value : Option String
  wait_seconds : Option ℚ := none
  max_wait_seconds : Option ℚ := none
  deriving Repr, DecidableEq

/-- Shape of `LocalRateLimitError` (errors.py). -/
structure LocalRateLimitErr where
  estimated_cost : ℚ
  wait_seconds : ℚ
  max_wait_seconds : ℚ
  deriving Repr, DecidableEq

/-- Model of Python `str.strip()` at the character level. -/
def py_strip (s : String) : String :=
  (((s.data.dropWhile Char.isWhitespace).reverse.dropWhile
      Char.isWhitespace).reverse).asString

/-- Model of Python `str.isdigit()` (false on the empty string). -/
def py_isdigit (s : String) : Bool :=
  !s.data.isEmpty && s.data.all Char.isDigit

/-- Model of Python `int(...)` on an all-digit string. -/
def py_int (s : String) : Nat :=
  s.data.foldl (fun n c => 10 * n + (c.toNat - 48)) 0

/-- Modelled from the spec: `retry.py` (`parse_retry_after`) is not under
`src/`.  Per spec section 4.1 and the in-source duplicate
`JiraRestClient._parse_retry_after`: a missing or empty/whitespace header
fails; an all-decimal-digit string is delta-seconds from the injected clock;
otherwise an ISO-8601 instant, abstracted here as the `isoParse` parameter;
any other format fails.  Returns the absolute retry time and variant label. -/
def parse_retry_after (isoParse : String → Option ℚ) (now : ℚ)
    (header : Option String) : Option (ℚ × String) :=
  match header with
  | none => none
  | some raw =>
    let candidate := py_strip raw
    if candidate = "" then none
    else if py_isdigit candidate then
      some (now + (py_int candidate : ℕ), "delta-seconds")
    else
      (isoParse candidate).map (fun t => (t, "iso-8601"))

/-- Result of the 429 rate-limit decision: fail with a `RateLimitError`, or
sleep for the clamped wait and retry. -/
inductive Decision429 where
  | fail (e : RateLimitErr)
  | sleepRetry (wait : ℚ)
  deriving Repr, DecidableEq

/-- The 429 decision after a successfully parsed Retry-After header,
translated from `client.py` lines 204-242 (identical logic at
`jira_rest_client.py` lines 141-178).  `retries` is the number of retries
already performed (`attempt_number = retries + 1`). -/
def decide_429 (max_retries : Nat) (max_wait : ℚ) (retries : Nat)
    (retry_at now : ℚ) (header : Option String) : Decision429 :=
  let computed_wait := retry_at - now
  let wait_seconds := if computed_wait ≤ 0 then 0 else computed_wait
  let retry_allowed := retries < max_retries
  let over_cap := computed_wait > max_wait
  if over_cap then
    .fail { retry_after := some retry_at, attempts := retries + 1,
            header_value := header, wait_seconds := some computed_wait,
            max_wait_seconds := some max_wait }
  else if ¬ retry_allowed then
    .fail { retry_after := some retry_at, attempts := retries + 1,
            header_value := header, wait_seconds := some computed_wait }
  else
    .sleepRetry wait_seconds

/-- The decision procedure exactly as claim C1 states it: first the
excessive-wait check (even if retries remain), then the attempts check
(failing without a `max_wait_seconds` field), else sleep the clamped wait
and retry. -/
def spec_429_decision (max_retries : Nat) (max_wait : ℚ) (attempts_so_far : Nat)
    (retry_at now : ℚ) (header : Option String) : Decision429 :=
  let computed_wait := retry_at - now
  if computed_wait > max_wait then
    .fail { retry_after := some retry_at, attempts := attempts_so_far + 1,
            header_value := header, wait_seconds := some computed_wait,
            max_wait_seconds := some max_wait }
  else if attempts_so_far ≥ max_retries then
    .fail { retry_after := some retry_at, attempts := attempts_so_far + 1,
            header_value := header, wait_seconds := some computed_wait }
  else
    .sleepRetry (max 0 computed_wait)

/-- Modelled from the spec: `throttle.py` (`TokenBucket`) is not under
`src/`.  Per spec section 4.2: capacity, token level, last-refill timestamp,
refill rate (tokens/second). -/
structure TokenBucket where
  capacity : ℚ
  refill_rate : ℚ
  tokens : ℚ
  last_refill : ℚ
  deriving Repr, DecidableEq

/-- Modelled from the spec: `TokenBucket.consume` per spec section 4.2.
Refill `elapsed * refill_rate` capped at capacity; if available covers the
cost, deduct and return no sleep; otherwise `wait = deficit / refill_rate`;
if `wait > max_wait` fail with `LocalRateLimitError` without sleeping or
deducting; else sleep `wait` (refilling during the sleep, capped) and deduct
the full declared cost.  Returns the sleeps performed, the new bucket and
the new clock value. -/
def TokenBucket.consume (b : TokenBucket) (cost max_wait now : ℚ) :
    Except LocalRateLimitErr (List ℚ × TokenBucket × ℚ) :=
  let available := min b.capacity (b.tokens + (now - b.last_refill) * b.refill_rate)
  if cost ≤ available then
    .ok ([], { b with tokens := available - cost, last_refill := now }, now)
  else
    let deficit := cost - available
    let wait := deficit / b.refill_rate
    if wait > max_wait then
      .error { estimated_cost := cost, wait_seconds := wait,
               max_wait_seconds := max_wait }
    else
      let now2 := now + wait
      let available2 := min b.capacity (available + wait * b.refill_rate)
      .ok ([wait], { b with tokens := available2 - cost, last_refill := now2 }, now2)

/-- Observable state threaded through one `execute`/`get_json` call: the
injected clock, the retry counter, the number of HTTP requests issued so
far, the trace of sleeper calls, the trace of costs passed to the local
throttle, and the optional token bucket. -/
structure ExecState where
  now : ℚ
  retries : Nat
  requests : Nat
  sleeps : List ℚ
  costs : List ℚ
  bucket : Option TokenBucket
  deriving Repr, DecidableEq

/-- Fresh per-call state (`retries = 0`, no requests yet). -/
def initState (now : ℚ) (bucket : Option TokenBucket) : ExecState :=
  { now := now, retries := 0, requests := 0, sleeps := [], costs := [],
    bucket := bucket }

/-- Result of `response.json()` on a GraphQL response: decode failure, a
non-object JSON document, or an object with its `data` / `errors` /
`extensions` members (`parse_error_items` of models.py is not under `src/`;
the error items are carried as an abstract list). -/
inductive GqlBody (α : Type) where
  | malformed
  | notDict
  | dict (pdata : Option α) (errors : Option (List α)) (extensions : Option α)
  deriving Repr, DecidableEq

/-- One scripted HTTP exchange: a transport-level failure
(`httpx.RequestError`) or a response with status, Retry-After header, raw
text, and decoded body. -/
inductive Response (α : Type) where
  | netError (message : List Char)
  | http (status : Nat) (retry_after : Option String) (text : List Char)
      (body : GqlBody α)
  deriving Repr, DecidableEq

/-- Shape of `GraphQLResult` (models.py, as consumed in client.py). -/
structure GraphQLResult (α : Type) where
  pdata : Option α
  errors : Option (List α)
  extensions : Option α
  deriving Repr, DecidableEq

/-- Failure taxonomy of one executor call (errors.py). -/
inductive ExecErr (α : Type) where
  | transport (status : Nat) (snippet : List Char)
  | rateLimit (e : RateLimitErr)
  | localRateLimit (e : LocalRateLimitErr)
  | serialization (msg : String)
  | graphQLOperation (errors : List α) (pdata : Option α)
  deriving Repr, DecidableEq

/-- Outcome of one executor call; `stuck` marks script exhaustion (the model
ran out of scripted responses, which has no source counterpart). -/
inductive ExecOutcome (α : Type) where
  | ok (result : GraphQLResult α) (st : ExecState)
  | err (e : ExecErr α) (st : ExecState)
  | stuck (st : ExecState)
  deriving Repr, DecidableEq

/-- Configuration captured by the client constructors. -/
structure ExecCfg where
  strict : Bool := false
  max_retries_429 : Nat
  max_wait_seconds : ℚ
  deriving Repr, DecidableEq

/-- Translation of `GraphQLClient._consume_local_budget` (client.py lines
83-97): record the cost passed to the throttle; with no bucket return at
once, otherwise run the bucket's consume, threading clock and sleeps. -/
def consume_local_budget (max_wait cost : ℚ) (st : ExecState) :
    ExecState × Option LocalRateLimitErr :=
  let st1 := { st with costs := st.costs ++ [cost] }
  match st1.bucket with
  | none => (st1, none)
  | some b =>
    match b.consume cost max_wait st1.now with
    | .error e => (st1, some e)
    | .ok (slept, b2, now2) =>
      ({ st1 with bucket := some b2, now := now2,
                  sleeps := st1.sleeps ++ slept }, none)

/-- Python truthiness of the parsed `errors` list (`if self.strict and
errors:`). -/
def errorsTruthy {α : Type} : Option (List α) → Bool
  | none => false
  | some [] => false
  | some (_ :: _) => true

/-- Translation of the retry loop of `GraphQLClient.execute` (client.py
lines 144-273).  Each loop iteration consumes the local budget, issues one
exchange (consuming one scripted response), then: transport failure →
`TransportError(0, str(exc))`; 429 → parse Retry-After (failure →
`RateLimitError` with `retry_after=None`) and apply `decide_429`; status ≥
500 or ≥ 400 → `TransportError(status, text[:200])`; otherwise decode the
body and return a `GraphQLResult` (strict mode turns truthy errors into
`GraphQLOperationError`). -/
def execute_loop {α : Type} (cfg : ExecCfg) (isoParse : String → Option ℚ)
    (cost : ℚ) : List (Response α) → ExecState → ExecOutcome α
  | [], st0 =>
    match consume_local_budget cfg.max_wait_seconds cost st0 with
    | (st1, some e) => .err (.localRateLimit e) st1
    | (st1, none) => .stuck st1
  | r :: rest, st0 =>
    match consume_local_budget cfg.max_wait_seconds cost st0 with
    | (st1, some e) => .err (.localRateLimit e) st1
    | (st1, none) =>
      let st2 := { st1 with requests := st1.requests + 1 }
      match r with
      | .netError msg => .err (.transport 0 msg) st2
      | .http status retry_header text body =>
        if status = 429 then
          match parse_retry_after isoParse st2.now retry_header with
          | none =>
            .err (.rateLimit { retry_after := none, attempts := st2.retries + 1,
                               header_value := retry_header }) st2
          | some (retry_at, _variant) =>
            match decide_429 cfg.max_retries_429 cfg.max_wait_seconds
                st2.retries retry_at st2.now retry_header with
            | .fail e => .err (.rateLimit e) st2
            | .sleepRetry w =>
              let st3 :=
                if 0 < w then
                  { st2 with now := st2.now + w, sleeps := st2.sleeps ++ [w] }
                else st2
              execute_loop cfg isoParse cost rest
                { st3 with retries := st3.retries + 1 }
        else if 500 ≤ status then .err (.transport status (text.take 200)) st2
        else if 400 ≤ status then .err (.transport status (text.take 200)) st2
        else
          match body with
          | .malformed => .err (.serialization "Failed to parse JSON") st2
          | .notDict =>
            .ok { pdata := none, errors := none, extensions := none } st2
          | .dict pdata errors extensions =>
            if cfg.strict && errorsTruthy errors then
              .err (.graphQLOperation (errors.getD []) pdata) st2
            else
              .ok { pdata := pdata, errors := errors, extensions := extensions } st2

/-- Translation of `GraphQLClient.execute` entry (client.py lines 123-147):
normalize the estimated cost (`None` → 1, negative → 0) and run the loop. -/
def normalize_cost (estimated_cost : Option Int) : Int :=
  let cost_value : Int := match estimated_cost with | none => 1 | some c => c
  if cost_value < 0 then 0 else cost_value

/-- Entry point of the embedded `GraphQLClient.execute`. -/
def GraphQLClient.execute {α : Type} (cfg : ExecCfg)
    (isoParse : String → Option ℚ) (estimated_cost : Option Int)
    (script : List (Response α)) (st : ExecState) : ExecOutcome α :=
  execute_loop cfg isoParse ((normalize_cost estimated_cost : Int) : ℚ) script st

/-- Result of `response.json()` on a Jira REST response: decode failure, a
non-object JSON document (rejected with `SerializationError`), or the object
payload itself. -/
inductive RestBody (β : Type) where
  | malformed
  | notDict
  | dict (payload : β)
  deriving Repr, DecidableEq

/-- One scripted HTTP exchange for the REST client. -/
inductive RestResponse (β : Type) where
  | netError (message : List Char)
  | http (status : Nat) (retry_after : Option String) (text : List Char)
      (body : RestBody β)
  deriving Repr, DecidableEq

/-- Outcome of one `get_json` call. -/
inductive RestOutcome (β : Type) where
  | ok (payload : β) (st : ExecState)
  | err (e : ExecErr Unit) (st : ExecState)
  | stuck (st : ExecState)
  deriving Repr, DecidableEq

/-- Translation of the retry loop of `JiraRestClient.get_json`
(jira_rest_client.py lines 87-200): same 429 state machine as the GraphQL
client (no local throttle), and the decoded body must be a JSON object. -/
def get_json_loop {β : Type} (cfg : ExecCfg) (isoParse : String → Option ℚ) :
    List (RestResponse β) → ExecState → RestOutcome β
  | [], st0 => .stuck st0
  | r :: rest, st0 =>
    let st2 := { st0 with requests := st0.requests + 1 }
    match r with
    | .netError msg => .err (.transport 0 msg) st2
    | .http status retry_header text body =>
      if status = 429 then
        match parse_retry_after isoParse st2.now retry_header with
        | none =>
          .err (.rateLimit { retry_after := none, attempts := st2.retries + 1,
                             header_value := retry_header }) st2
        | some (retry_at, _variant) =>
          match decide_429 cfg.max_retries_429 cfg.max_wait_seconds
              st2.retries retry_at st2.now retry_header with
          | .fail e => .err (.rateLimit e) st2
          | .sleepRetry w =>
            let st3 :=
              if 0 < w then
                { st2 with now := st2.now + w, sleeps := st2.sleeps ++ [w] }
              else st2
            get_json_loop cfg isoParse rest { st3 with retries := st3.retries + 1 }
      else if 500 ≤ status then .err (.transport status (text.take 200)) st2
      else if 400 ≤ status then .err (.transport status (text.take 200)) st2
      else
        match body with
        | .malformed => .err (.serialization "Failed to parse JSON") st2
        | .notDict => .err (.serialization "Expected object JSON response") st2
        | .dict payload => .ok payload st2

/-- GraphQL `PageInfo` (shape used by jira_projects.py; the generated
parser module `gen/jira_projects_api.py` is not under `src/`, so the parsed
shapes are modelled from their uses and spec section 3). -/
structure PageInfo where
  has_next_page : Bool
  end_cursor : Option String
  deriving Repr, DecidableEq

/-- GraphQL connection edge: optional cursor plus node. -/
structure Edge (ν : Type) where
  cursor : Option String
  node : ν
  deriving Repr, DecidableEq

/-- GraphQL connection: page info plus ordered edges. -/
structure ConnectionShape (ν : Type) where
  page_info : PageInfo
  edges : List (Edge ν)
  deriving Repr, DecidableEq

/-- Opsgenie team node as consumed by the mapper. -/
structure OpsgenieTeamNode where
  id : String
  name : String
  deriving Repr, DecidableEq

/-- Jira project node as consumed by jira_projects.py. -/
structure JiraProjectNode where
  id : String
  key : String
  name : String
  opsgenie_teams : ConnectionShape OpsgenieTeamNode
  deriving Repr, DecidableEq

/-- Canonical `OpsgenieTeamRef` (canonical_models.py). -/
structure OpsgenieTeamRef where
  id : String
  name : String
  deriving Repr, DecidableEq

/-- Canonical `JiraProject` (canonical_models.py). -/
structure JiraProject where
  cloud_id : String
  key : String
  name : String
  type : Option String := none
  deriving Repr, DecidableEq

/-- Canonical `CanonicalProjectWithOpsgenieTeams` (canonical_models.py). -/
structure CanonicalProjectWithOpsgenieTeams where
  project : JiraProject
  opsgenie_teams : List OpsgenieTeamRef
  deriving Repr, DecidableEq

/-- Python truthiness of an optional cursor string (`if cursor:`). -/
def truthyStr : Option String → Bool
  | none => false
  | some s => !(s = "")

/-- Translation of `_next_after_from_pageinfo` (jira_projects.py lines
71-87): no next page → `none`; else prefer a truthy `end_cursor` when the
schema exposes one; else, when edges carry cursors, the last truthy edge
cursor; else fail with the `SerializationError` message. -/
def next_after_from_pageinfo (pageinfo_has_end_cursor : Bool)
    (has_next_page : Bool) (end_cursor : Option String)
    (edge_has_cursor : Bool) (edges_cursors : List (Option String))
    (path : String) : Except String (Option String) :=
  if !has_next_page then .ok none
  else if pageinfo_has_end_cursor && truthyStr end_cursor then .ok end_cursor
  else
    match (if edge_has_cursor then edges_cursors.reverse.find? truthyStr
           else none) with
    | some c => .ok c
    | none => .error ("Pagination cursor missing for " ++ path)

/-- Translation of the dedup loop of `map_project_with_opsgenie_teams`
(mappers/jira_projects_mapper.py): validate team id and name, skip ids
already seen, preserve order. -/
def map_teams (seen : List String) :
    List OpsgenieTeamNode → Except String (List OpsgenieTeamRef)
  | [] => .ok []
  | t :: rest =>
    let team_id := py_strip t.id
    if team_id = "" then .error "opsgenie_team.id is required"
    else if team_id ∈ seen then map_teams seen rest
    else
      let team_name := py_strip t.name
      if team_name = "" then .error "opsgenie_team.name is required"
      else
        (map_teams (team_id :: seen) rest).map
          (fun refs => { id := team_id, name := team_name } :: refs)

/-- Translation of `map_project_with_opsgenie_teams`
(mappers/jira_projects_mapper.py): validates cloud id, project key and
name, then maps the (deduplicated) team list. -/
def map_project_with_opsgenie_teams (cloud_id : String)
    (project : JiraProjectNode) (teams : List OpsgenieTeamNode) :
    Except String CanonicalProjectWithOpsgenieTeams :=
  let cloud := py_strip cloud_id
  if cloud = "" then .error "cloud_id is required"
  else
    let key := py_strip project.key
    if key = "" then .error "project.key is required"
    else
      let name := py_strip project.name
      if name = "" then .error "project.name is required"
      else
        (map_teams [] teams).map
          (fun refs =>
            { project := { cloud_id := cloud, key := key, name := name },
              opsgenie_teams := refs })

/-- Failure kinds observable from a pagination call: a `SerializationError`,
a `ValueError` from a mapper, or an error propagated unchanged from the
executor. -/
inductive PagErr where
  | serialization (msg : String)
  | valueError (msg : String)
  | executor (e : ExecErr Unit)
  deriving Repr, DecidableEq

/-- Completion status of a (fuel-bounded) pagination run. -/
inductive RunStatus where
  | done
  | failed (e : PagErr)
  | fuelOut
  deriving Repr, DecidableEq

/-- Events observable from a cursor-pagination call, in order: outer page
requests, nested (per-parent) page requests, and yielded records. -/
inductive PagEvent where
  | outerReq (after : Option String)
  | nestedReq (project_key : String) (after : String)
  | yieldRec (r : CanonicalProjectWithOpsgenieTeams)
  deriving Repr, DecidableEq

/-- Trace and result of the nested (per-parent) opsgenie pagination. -/
structure NestedRun where
  requested : List String
  events : List PagEvent
  out : List OpsgenieTeamNode
  status : RunStatus
  deriving Repr, DecidableEq

/-- Compile-time schema facts of the generated API module
(`PAGEINFO_HAS_END_CURSOR`, `PROJECTS_EDGE_HAS_CURSOR`,
`OPSGENIE_EDGE_HAS_CURSOR`, `REFETCH_STRATEGY`); the module is generated
and not under `src/`, so they are parameters of the embedding. -/
structure SchemaFlags where
  pageinfo_has_end_cursor : Bool
  projects_edge_has_cursor : Bool
  opsgenie_edge_has_cursor : Bool
  refetch_strategy_node : Bool
  deriving Repr, DecidableEq

/-- Translation of the `while` loop of `_paginate_opsgenie_teams`
(jira_projects.py lines 223-269): validate the refetch variables, issue the
nested page request (the executor and `parse_project_opsgenie_teams` are
abstracted as the `oracle`, which returns the parsed connection or the
propagated failure), accumulate nodes, select the next cursor, and abort on
a repeated cursor. -/
def paginate_opsgenie_teams_loop (flags : SchemaFlags)
    (oracle : JiraProjectNode → String → Except PagErr (ConnectionShape OpsgenieTeamNode))
    (project : JiraProjectNode) :
    Nat → String → List String → NestedRun
  | 0, _, _ => { requested := [], events := [], out := [], status := .fuelOut }
  | fuel + 1, after, seen =>
    let invalidVars : Option String :=
      if flags.refetch_strategy_node then
        if py_strip project.id = "" then
          some "Project id is required for node-based opsgenie pagination"
        else none
      else
        if py_strip project.key = "" then
          some "Project key is required for opsgenie pagination"
        else none
    match invalidVars with
    | some msg =>
      { requested := [], events := [], out := [],
        status := .failed (.serialization msg) }
    | none =>
      let reqEv := [PagEvent.nestedReq project.key after]
      match oracle project after with
      | .error e =>
        { requested := [after], events := reqEv, out := [],
          status := .failed e }
      | .ok conn =>
        let nodes := conn.edges.map (·.node)
        match next_after_from_pageinfo flags.pageinfo_has_end_cursor
            conn.page_info.has_next_page conn.page_info.end_cursor
            flags.opsgenie_edge_has_cursor (conn.edges.map (·.cursor))
            ("jira.project[" ++ project.key ++ "].opsgenieTeams") with
        | .error msg =>
          { requested := [after], events := reqEv, out := nodes,
            status := .failed (.serialization msg) }
        | .ok none =>
          { requested := [after], events := reqEv, out := nodes,
            status := .done }
        | .ok (some c) =>
          if c ∈ seen then
            { requested := [after], events := reqEv, out := nodes,
              status :=
                .failed (.serialization
                  "Opsgenie pagination cursor repeated; aborting") }
          else
            let sub := paginate_opsgenie_teams_loop flags oracle project fuel c
              (c :: seen)
            { requested := after :: sub.requested,
              events := reqEv ++ sub.events,
              out := nodes ++ sub.out,
              status := sub.status }

/-- Translation of the entry of `_paginate_opsgenie_teams` (jira_projects.py
lines 200-221): select the first nested cursor from the initial embedded
connection; `none` means nothing to drain; otherwise seed the nested
seen-cursor set with it and loop. -/
def paginate_opsgenie_teams (flags : SchemaFlags)
    (oracle : JiraProjectNode → String → Except PagErr (ConnectionShape OpsgenieTeamNode))
    (project : JiraProjectNode) (initial : ConnectionShape OpsgenieTeamNode)
    (fuel : Nat) : NestedRun :=
  match next_after_from_pageinfo flags.pageinfo_has_end_cursor
      initial.page_info.has_next_page initial.page_info.end_cursor
      flags.opsgenie_edge_has_cursor (initial.edges.map (·.cursor))
      ("jira.project[" ++ project.key ++ "].opsgenieTeams") with
  | .error msg =>
    { requested := [], events := [], out := [],
      status := .failed (.serialization msg) }
  | .ok none => { requested := [], events := [], out := [], status := .done }
  | .ok (some a) => paginate_opsgenie_teams_loop flags oracle project fuel a [a]

/-- Trace and result of the outer cursor-pagination run. -/
structure OuterRun where
  requested : List (Option String)
  events : List PagEvent
  yields : List CanonicalProjectWithOpsgenieTeams
  status : RunStatus
  deriving Repr, DecidableEq

/-- Translation of the per-edge body of the outer loop (jira_projects.py
lines 134-154): for each edge, take the embedded nested connection's nodes,
drain the rest via `_paginate_opsgenie_teams` when `has_next_page` is true,
then map and yield the composed record. -/
def process_edges (flags : SchemaFlags) (cloud_id : String)
    (nestedOracle : JiraProjectNode → String → Except PagErr (ConnectionShape OpsgenieTeamNode))
    (nestedFuel : Nat) :
    List (Edge JiraProjectNode) →
      List PagEvent × List CanonicalProjectWithOpsgenieTeams × Option PagErr
  | [] => ([], [], none)
  | e :: rest =>
    let project := e.node
    let teams_conn := project.opsgenie_teams
    let base := teams_conn.edges.map (·.node)
    if teams_conn.page_info.has_next_page then
      let sub := paginate_opsgenie_teams flags nestedOracle project teams_conn
        nestedFuel
      match sub.status with
      | .failed err => (sub.events, [], some err)
      | .fuelOut =>
        (sub.events, [], some (.serialization "model ran out of fuel"))
      | .done =>
        match map_project_with_opsgenie_teams cloud_id project
            (base ++ sub.out) with
        | .error msg => (sub.events, [], some (.valueError msg))
        | .ok record =>
          let (evs, ys, st) := process_edges flags cloud_id nestedOracle
            nestedFuel rest
          (sub.events ++ [PagEvent.yieldRec record] ++ evs, record :: ys, st)
    else
      match map_project_with_opsgenie_teams cloud_id project base with
      | .error msg => ([], [], some (.valueError msg))
      | .ok record =>
        let (evs, ys, st) := process_edges flags cloud_id nestedOracle
          nestedFuel rest
        (PagEvent.yieldRec record :: evs, record :: ys, st)

/-- Translation of the outer `while` loop of
`iter_projects_with_opsgenie_linkable_teams` (jira_projects.py lines
110-168): request a page (executor plus `parse_jira_projects_page`
abstracted as `outerOracle`), process every edge (draining nested
connections and yielding), select the next outer cursor, and abort on a
repeated cursor before issuing any further request. -/
def outer_projects_loop (flags : SchemaFlags) (cloud_id : String)
    (outerOracle : Option String → Except PagErr (ConnectionShape JiraProjectNode))
    (nestedOracle : JiraProjectNode → String → Except PagErr (ConnectionShape OpsgenieTeamNode))
    (nestedFuel : Nat) :
    Nat → Option String → List String → OuterRun
  | 0, _, _ =>
    { requested := [], events := [], yields := [], status := .fuelOut }
  | fuel + 1, after, seen =>
    let reqEv := [PagEvent.outerReq after]
    match outerOracle after with
    | .error e =>
      { requested := [after], events := reqEv, yields := [],
        status := .failed e }
    | .ok conn =>
      match process_edges flags cloud_id nestedOracle nestedFuel conn.edges with
      | (events, yields, some e) =>
        { requested := [after], events := reqEv ++ events, yields := yields,
          status := .failed e }
      | (events, yields, none) =>
        match next_after_from_pageinfo flags.pageinfo_has_end_cursor
            conn.page_info.has_next_page conn.page_info.end_cursor
            flags.projects_edge_has_cursor (conn.edges.map (·.cursor))
            "jira.projects" with
        | .error msg =>
          { requested := [after], events := reqEv ++ events, yields := yields,
            status := .failed (.serialization msg) }
        | .ok none =>
          { requested := [after], events := reqEv ++ events, yields := yields,
            status := .done }
        | .ok (some c) =>
          if c ∈ seen then
            { requested := [after], events := reqEv ++ events,
              yields := yields,
              status :=
                .failed (.serialization
                  "Pagination cursor repeated; aborting to prevent infinite loop") }
          else
            let sub := outer_projects_loop flags cloud_id outerOracle
              nestedOracle nestedFuel fuel (some c) (c :: seen)
            { requested := after :: sub.requested,
              events := reqEv ++ events ++ sub.events,
              yields := yields ++ sub.yields,
              status := sub.status }

/-- Offset-paginated REST page as consumed by jira_rest_projects.py /
jira_rest_issues.py (the generated `PageBeanProject` / `SearchResults`
parsers of `gen/jira_rest_api.py` are not under `src/`; the parsed shape —
values, optional `isLast` flag, optional `total` — is modelled from its
uses and spec section 4.5; `SearchResults` carries no `isLast`). -/
structure RestPage (α : Type) where
  values : List α
  is_last : Option Bool := none
  total : Option Int := none
  deriving Repr, DecidableEq

/-- Decision taken at the bottom of one offset-loop iteration. -/
inductive OffsetDecision where
  | stop
  | contin (next_start : Nat)
  | fail (msg : String)
  deriving Repr, DecidableEq

/-- Translation of the termination logic of `iter_projects_via_rest`
(jira_rest_projects.py lines 63-81): break on an explicit `isLast=True`;
else break once `startAt + count` reaches a present non-negative total,
or — with no usable total — once the count falls short of the page size;
an empty page reaching the final check fails on an explicit `isLast=False`
and otherwise breaks; else advance the offset by the returned count. -/
def rest_offset_decision (page_size start_at : Nat) (is_last : Option Bool)
    (total : Option Int) (count : Nat) : OffsetDecision :=
  if is_last = some true then .stop
  else
    let hasTotal : Bool :=
      match total with
      | some t => decide (0 ≤ t)
      | none => false
    let stopHere : Bool :=
      if hasTotal then decide ((start_at : Int) + count ≥ total.getD 0)
      else decide (count < page_size)
    if stopHere then .stop
    else if count = 0 then
      if is_last = some false then
        .fail "Received empty page with isLast=false; cannot continue pagination"
      else .stop
    else .contin (start_at + count)

/-- Translation of the termination logic of `iter_issues_via_rest`
(jira_rest_issues.py lines 72-82): like the projects variant but the page
shape has no `isLast` flag, so an empty page reaching the final check
always breaks. -/
def issues_offset_decision (page_size start_at : Nat) (total : Option Int)
    (count : Nat) : OffsetDecision :=
  let hasTotal : Bool :=
    match total with
    | some t => decide (0 ≤ t)
    | none => false
  let stopHere : Bool :=
    if hasTotal then decide ((start_at : Int) + count ≥ total.getD 0)
    else decide (count < page_size)
  if stopHere then .stop
  else if count = 0 then .stop
  else .contin (start_at + count)

/-- The termination procedure exactly as claim C4 states it: (a) an
explicit is-last flag that is present and true stops; else (b) with a
non-negative total present, stop once `offset + count` reaches it; else
(c) stop when the count is smaller than the page size; an empty page that
would otherwise continue raises `SerializationError` when an explicit
is-last flag is false, and any other empty page stops normally. -/
def spec_offset_decision (page_size start_at : Nat) (is_last : Option Bool)
    (total : Option Int) (count : Nat) : OffsetDecision :=
  let emptyGuard : OffsetDecision :=
    if count = 0 then
      if is_last = some false then
        .fail "Received empty page with isLast=false; cannot continue pagination"
      else .stop
    else .contin (start_at + count)
  if is_last = some true then .stop
  else
    match total with
    | some t =>
      if 0 ≤ t then
        if (start_at : Int) + count ≥ t then .stop else emptyGuard
      else if count < page_size then .stop else emptyGuard
    | none => if count < page_size then .stop else emptyGuard

/-- Trace and result of an offset-pagination run. -/
structure RestRun (ρ : Type) where
  requested : List Nat
  yields : List ρ
  status : RunStatus
  deriving Repr, DecidableEq

/-- Per-item mapping and filtering of one REST page
(`map_rest_project` plus the project-type filter, abstracted as `emit`:
`none` means filtered out, `.error` a raised `ValueError`).  Returns the
yielded records and the first failure, if any. -/
def emit_values {α ρ : Type} (emit : α → Except String (Option ρ)) :
    List α → List ρ × Option String
  | [] => ([], none)
  | v :: rest =>
    match emit v with
    | .error e => ([], some e)
    | .ok none => emit_values emit rest
    | .ok (some r) =>
      let (ys, st) := emit_values emit rest
      (r :: ys, st)

/-- Translation of the `while` loop of `iter_projects_via_rest`
(jira_rest_projects.py lines 43-81): abort before issuing any request when
the offset was already requested; otherwise request the page (`get_json`
plus `PageBeanProject.from_dict` abstracted as `oracle`), yield the mapped
and filtered values, then apply `rest_offset_decision`. -/
def iter_projects_via_rest_loop {α ρ : Type}
    (oracle : Nat → Except PagErr (RestPage α))
    (emit : α → Except String (Option ρ)) (page_size : Nat) :
    Nat → List Nat → Nat → RestRun ρ
  | 0, _, _ => { requested := [], yields := [], status := .fuelOut }
  | fuel + 1, seen, start_at =>
    if start_at ∈ seen then
      { requested := [], yields := [],
        status :=
          .failed (.serialization
            "Pagination startAt repeated; aborting to prevent infinite loop") }
    else
      match oracle start_at with
      | .error e =>
        { requested := [start_at], yields := [], status := .failed e }
      | .ok page =>
        let (ys, emitErr) := emit_values emit page.values
        match emitErr with
        | some msg =>
          { requested := [start_at], yields := ys,
            status := .failed (.valueError msg) }
        | none =>
          match rest_offset_decision page_size start_at page.is_last
              page.total page.values.length with
          | .stop => { requested := [start_at], yields := ys, status := .done }
          | .fail msg =>
            { requested := [start_at], yields := ys,
              status := .failed (.serialization msg) }
          | .contin next =>
            let sub := iter_projects_via_rest_loop oracle emit page_size fuel
              (start_at :: seen) next
            { requested := start_at :: sub.requested,
              yields := ys ++ sub.yields,
              status := sub.status }

/-- Translation of the `while` loop of `iter_issues_via_rest`
(jira_rest_issues.py lines 52-82): same repeated-offset guard, every issue
yielded through the mapper, then `issues_offset_decision`. -/
def iter_issues_via_rest_loop {α ρ : Type}
    (oracle : Nat → Except PagErr (RestPage α))
    (emit : α → Except String ρ) (page_size : Nat) :
    Nat → List Nat → Nat → RestRun ρ
  | 0, _, _ => { requested := [], yields := [], status := .fuelOut }
  | fuel + 1, seen, start_at =>
    if start_at ∈ seen then
      { requested := [], yields := [],
        status :=
          .failed (.serialization
            "Pagination startAt repeated; aborting to prevent infinite loop") }
    else
      match oracle start_at with
      | .error e =>
        { requested := [start_at], yields := [], status := .failed e }
      | .ok page =>
        let (ys, emitErr) :=
          emit_values (fun v => (emit v).map some) page.values
        match emitErr with
        | some msg =>
          { requested := [start_at], yields := ys,
            status := .failed (.valueError msg) }
        | none =>
          match issues_offset_decision page_size start_at page.total
              page.values.length with
          | .stop => { requested := [start_at], yields := ys, status := .done }
          | .fail msg =>
            { requested := [start_at], yields := ys,
              status := .failed (.serialization msg) }
          | .contin next =>
            let sub := iter_issues_via_rest_loop oracle emit page_size fuel
              (start_at :: seen) next
            { requested := start_at :: sub.requested,
              yields := ys ++ sub.yields,
              status := sub.status }

/-- Final observable state of an executor outcome. -/
def outState {α : Type} : ExecOutcome α → ExecState
  | .ok _ st => st
  | .err _ st => st
  | .stuck st => st

/-- Cursor selection exactly as claim C6 states it: when `has_next_page` is
false pagination stops regardless of any cursor; otherwise a non-empty
`end_cursor` is used when the schema exposes one; otherwise the cursor of
the last edge carrying one; otherwise the paginator fails. -/
def spec_cursor_selection (schema_end_cursor : Bool) (has_next_page : Bool)
    (end_cursor : Option String) (edges_cursors : List (Option String))
    (path : String) : Except String (Option String) :=
  if !has_next_page then .ok none
  else if schema_end_cursor && truthyStr end_cursor then .ok end_cursor
  else
    match edges_cursors.reverse.find? truthyStr with
    | some c => .ok c
    | none => .error ("Pagination cursor missing for " ++ path)

/-- Schema flags of the two-level pagination scenario of spec section 8. -/
def scenFlags : SchemaFlags :=
  { pageinfo_has_end_cursor := true, projects_edge_has_cursor := true,
    opsgenie_edge_has_cursor := true, refetch_strategy_node := false }

/-- Scenario parent 1: nested connection reports a further page. -/
def projA : JiraProjectNode :=
  { id := "projA", key := "A", name := "Project A",
    opsgenie_teams :=
      { page_info := { has_next_page := true, end_cursor := some "TA1" },
        edges := [{ cursor := some "tc1", node := { id := "t1", name := "Team 1" } },
                  { cursor := some "tc2", node := { id := "t2", name := "Team 2" } }] } }

/-- Scenario parent 2: empty nested connection, no further page. -/
def projB : JiraProjectNode :=
  { id := "projB", key := "B", name := "Project B",
    opsgenie_teams :=
      { page_info := { has_next_page := false, end_cursor := none },
        edges := [] } }

/-- Scenario parent 3, on outer page 2. -/
def projC : JiraProjectNode :=
  { id := "projC", key := "C", name := "Project C",
    opsgenie_teams :=
      { page_info := { has_next_page := false, end_cursor := none },
        edges := [{ cursor := some "tc4", node := { id := "t4", name := "Team 4" } }] } }

/-- Scenario outer server: page 1 holds parents A and B and points at
cursor P1; page 2 holds parent C and is last. -/
def scenOuterOracle :
    Option String → Except PagErr (ConnectionShape JiraProjectNode)
  | none =>
    .ok { page_info := { has_next_page := true, end_cursor := some "P1" },
          edges := [{ cursor := some "pc1", node := projA },
                    { cursor := some "pc2", node := projB }] }
  | some "P1" =>
    .ok { page_info := { has_next_page := false, end_cursor := none },
          edges := [{ cursor := some "pc3", node := projC }] }
  | some _ => .error (.serialization "unexpected outer cursor")

/-- Scenario nested server: draining parent A from cursor TA1 returns one
final page with team 3. -/
def scenNestedOracle :
    JiraProjectNode → String → Except PagErr (ConnectionShape OpsgenieTeamNode) :=
  fun p a =>
    if p.key = "A" && a = "TA1" then
      .ok { page_info := { has_next_page := false, end_cursor := none },
            edges := [{ cursor := some "tc3", node := { id := "t3", name := "Team 3" } }] }
    else .error (.serialization "unexpected nested request")

/-- Composed record expected for scenario parent A. -/
def recA : CanonicalProjectWithOpsgenieTeams :=
  { project := { cloud_id := "cloud-123", key := "A", name := "Project A" },
    opsgenie_teams := [{ id := "t1", name := "Team 1" },
                       { id := "t2", name := "Team 2" },
                       { id := "t3", name := "Team 3" }] }

/-- Composed record expected for scenario parent B. -/
def recB : CanonicalProjectWithOpsgenieTeams :=
  { project := { cloud_id := "cloud-123", key := "B", name := "Project B" },
    opsgenie_teams := [] }

/-- Composed record expected for scenario parent C. -/
def recC : CanonicalProjectWithOpsgenieTeams :=
  { project := { cloud_id := "cloud-123", key := "C", name := "Project C" },
    opsgenie_teams := [{ id := "t4", name := "Team 4" }] }

/-- Claim C1: for every 429 response whose Retry-After header parses, the
executor decides in this precedence: an excessive computed wait fails with a
`RateLimitError` carrying both `wait_seconds` and `max_wait_seconds` even if
retries remain; otherwise exhausted attempts fail with a `RateLimitError`
carrying `wait_seconds` but no `max_wait_seconds`; otherwise it sleeps and
retries.  The decision translated from the code equals the claim's decision
procedure at every input. -/
theorem claim_C1_429_decision_precedence
    (max_retries : Nat) (max_wait : ℚ) (retries : Nat)
    (retry_at now : ℚ) (header : Option String) :
    decide_429 max_retries max_wait retries retry_at now header =
      spec_429_decision max_retries max_wait retries retry_at now header := by
  unfold decide_429 spec_429_decision
  rcases le_or_lt (retry_at - now) max_wait with h | h
  · simp only [gt_iff_lt, not_lt.mpr h, if_false]
    rcases Nat.lt_or_ge retries max_retries with hr | hr
    · simp only [hr, not_true, if_false, if_neg (Nat.not_le.mpr hr)]
      rcases le_or_lt (retry_at - now) 0 with h0 | h0
      · simp [h0, max_eq_left h0]
      · simp [not_le.mpr h0, max_eq_right (le_of_lt h0)]
    · simp [Nat.not_lt.mpr hr, hr]
  · simp [h]

/-- Claim C4: offset-pagination termination is decided in the claimed
precedence — explicit is-last flag first, then a present non-negative total
(`offset + count ≥ total`), then the short-page heuristic — and an empty
page that would otherwise continue fails on an explicit false is-last flag
while any other empty page stops normally.  Both offset paginators'
translated decisions equal the claim's procedure (the issues paginator's
page shape carries no is-last flag). -/
theorem claim_C4_offset_termination_precedence
    (page_size start_at : Nat) (is_last : Option Bool) (total : Option Int)
    (count : Nat) :
    rest_offset_decision page_size start_at is_last total count =
      spec_offset_decision page_size start_at is_last total count ∧
    issues_offset_decision page_size start_at total count =
      spec_offset_decision page_size start_at none total count := by
  constructor
  · unfold rest_offset_decision spec_offset_decision
    by_cases hl : is_last = some true
    · simp [hl]
    · simp only [if_neg hl]
      cases total with
      | none => by_cases hc : count < page_size <;> simp [hc]
      | some t =>
        by_cases ht : (0 : Int) ≤ t
        · by_cases hs : (start_at : Int) + count ≥ t <;> simp [ht, hs]
        · by_cases hc : count < page_size <;> simp [ht, hc]
  · unfold issues_offset_decision spec_offset_decision
    simp only [reduceCtorEq, if_neg (by simp : ¬ (none : Option Bool) = some true)]
    cases total with
    | none => by_cases hc : count < page_size <;> simp [hc]
    | some t =>
      by_cases ht : (0 : Int) ≤ t
      · by_cases hs : (start_at : Int) + count ≥ t <;> simp [ht, hs]
      · by_cases hc : count < page_size <;> simp [ht, hc]

/-- Claim C6: at every pagination level the next cursor is selected by:
stop when `has_next_page` is false regardless of cursors; else use a
non-empty `end_cursor` when the schema exposes one; else the cursor of the
last edge carrying one; else fail with `SerializationError`.  The
translated selection equals the claim's policy on every input whose edge
cursors are only populated when the schema exposes edge cursors (the
generated parser never populates them otherwise). -/
theorem claim_C6_cursor_selection_policy
    (pageinfo_has_end_cursor has_next_page : Bool) (end_cursor : Option String)
    (edge_has_cursor : Bool) (edges_cursors : List (Option String))
    (path : String)
    (hwf : edge_has_cursor = false →
      ∀ c ∈ edges_cursors, truthyStr c = false) :
    next_after_from_pageinfo pageinfo_has_end_cursor has_next_page end_cursor
        edge_has_cursor edges_cursors path =
      spec_cursor_selection pageinfo_has_end_cursor has_next_page end_cursor
        edges_cursors path := by
  unfold next_after_from_pageinfo spec_cursor_selection
  cases edge_has_cursor with
  | true => simp
  | false =>
    have hfind : edges_cursors.reverse.find? truthyStr = none := by
      refine List.find?_eq_none.mpr (fun x hx => ?_)
      simp [hwf rfl x (List.mem_reverse.mp hx)]
    simp [hfind]

/-- Witness for claim C6 at a concrete input: schema exposes edge cursors,
`has_next_page` true, empty `end_cursor`, so the last truthy edge cursor is
selected by both the code and the claim's policy. -/
theorem claim_C6_cursor_selection_policy_witness :
    next_after_from_pageinfo true true none true
        [some "a", none, some "b"] "jira.projects" =
      spec_cursor_selection true true none [some "a", none, some "b"]
        "jira.projects" ∧
    next_after_from_pageinfo true true none true
        [some "a", none, some "b"] "jira.projects" = .ok (some "b") :=
  ⟨claim_C6_cursor_selection_policy true true none true
      [some "a", none, some "b"] "jira.projects"
      (fun h => absurd h (by simp)),
   rfl⟩

/-- Helper: with local throttling disabled the budget call only records the
cost it was passed. -/
theorem consume_local_budget_no_bucket (max_wait cost : ℚ) (st : ExecState)
    (h : st.bucket = none) :
    consume_local_budget max_wait cost st =
      ({ st with costs := st.costs ++ [cost] }, none) := by
  unfold consume_local_budget
  simp [h]

/-- Claim C7: for every 429 response whose Retry-After header is missing,
empty, or unsupported (i.e. fails to parse), both executors fail at once —
no retry, no sleep — with a `RateLimitError` whose `retry_after` is `None`
and which carries the attempt count (and the raw header value); there is no
separate externally visible `MalformedRetryAfter` kind in the outcome
taxonomy. -/
theorem claim_C7_unparseable_retry_after_fails_immediately
    {α β : Type} (cfg : ExecCfg) (iso : String → Option ℚ) (cost : ℚ)
    (script : List (Response α)) (rscript : List (RestResponse β))
    (st : ExecState) (header : Option String) (text rtext : List Char)
    (body : GqlBody α) (rbody : RestBody β)
    (hb : st.bucket = none)
    (hp : parse_retry_after iso st.now header = none) :
    execute_loop cfg iso cost (.http 429 header text body :: script) st =
      .err (.rateLimit { retry_after := none, attempts := st.retries + 1,
                         header_value := header })
        { st with costs := st.costs ++ [cost], requests := st.requests + 1 } ∧
    get_json_loop cfg iso (.http 429 header rtext rbody :: rscript) st =
      .err (.rateLimit { retry_after := none, attempts := st.retries + 1,
                         header_value := header })
        { st with requests := st.requests + 1 } := by
  constructor
  · simp [execute_loop, consume_local_budget_no_bucket _ _ _ hb, hp]
  · simp [get_json_loop, hp]

/-- Witness for claim C7 at the concrete header "not-a-date" (an
unsupported format under an ISO parser that rejects it). -/
theorem claim_C7_unparseable_retry_after_fails_immediately_witness :
    execute_loop (α := Nat)
        { strict := false, max_retries_429 := 2, max_wait_seconds := 60 }
        (fun _ => none) 1
        [.http 429 (some "not-a-date") [] .notDict] (initState 0 none) =
      .err (.rateLimit { retry_after := none, attempts := 1,
                         header_value := some "not-a-date" })
        { now := 0, retries := 0, requests := 1, sleeps := [], costs := [1],
          bucket := none } ∧
    get_json_loop (β := Nat)
        { strict := false, max_retries_429 := 2, max_wait_seconds := 60 }
        (fun _ => none)
        [.http 429 (some "not-a-date") [] .notDict] (initState 0 none) =
      .err (.rateLimit { retry_after := none, attempts := 1,
                         header_value := some "not-a-date" })
        { now := 0, retries := 0, requests := 1, sleeps := [], costs := [],
          bucket := none } := by
  have h := claim_C7_unparseable_retry_after_fails_immediately
    (α := Nat) (β := Nat)
    { strict := false, max_retries_429 := 2, max_wait_seconds := 60 }
    (fun _ => none) 1 [] [] (initState 0 none) (some "not-a-date") [] []
    .notDict .notDict rfl (by decide)
  exact h

/-- Counterexample to claim C8 as stated: a status-300 response is neither
2xx nor 429, yet the executor does not fail with `TransportError` — it
falls through to the success path and returns a parsed result. -/
theorem claim_C8_counterexample_status_300 :
    execute_loop (α := Nat)
        { strict := false, max_retries_429 := 2, max_wait_seconds := 60 }
        (fun _ => none) 1
        [.http 300 none [] (.dict (some 0) none none)] (initState 0 none) =
      .ok { pdata := some 0, errors := none, extensions := none }
        { now := 0, retries := 0, requests := 1, sleeps := [], costs := [1],
          bucket := none } := by
  decide

/-- Claim C8 (amended): for every response whose status is at least 400 and
not 429, both executors immediately fail with `TransportError` carrying the
status and the first 200 characters of the body, and never retry; every
transport-level failure immediately fails with `TransportError` carrying
status 0 and the exception text (not truncated), and never retries;
statuses below 400 other than 429 fall through to response parsing. -/
theorem claim_C8_amended_transport_errors
    {α β : Type} (cfg : ExecCfg) (iso : String → Option ℚ) (cost : ℚ)
    (script : List (Response α)) (rscript : List (RestResponse β))
    (st : ExecState) (header : Option String) (text msg : List Char)
    (body : GqlBody α) (rbody : RestBody β) (status : Nat)
    (hb : st.bucket = none) (h4 : 400 ≤ status) (hn : status ≠ 429) :
    execute_loop cfg iso cost (.http status header text body :: script) st =
      .err (.transport status (text.take 200))
        { st with costs := st.costs ++ [cost], requests := st.requests + 1 } ∧
    execute_loop cfg iso cost (.netError msg :: script) st =
      .err (.transport 0 msg)
        { st with costs := st.costs ++ [cost], requests := st.requests + 1 } ∧
    get_json_loop cfg iso (.http status header text rbody :: rscript) st =
      .err (.transport status (text.take 200))
        { st with requests := st.requests + 1 } ∧
    get_json_loop cfg iso (.netError msg :: rscript) st =
      .err (.transport 0 msg) { st with requests := st.requests + 1 } ∧
    (text.take 200).length ≤ 200 := by
  refine ⟨?_, ?_, ?_, ?_, ?_⟩
  · by_cases h5 : 500 ≤ status <;>
      simp [execute_loop, consume_local_budget_no_bucket _ _ _ hb, hn, h4, h5]
  · simp [execute_loop, consume_local_budget_no_bucket _ _ _ hb]
  · by_cases h5 : 500 ≤ status <;> simp [get_json_loop, hn, h4, h5]
  · simp [get_json_loop]
  · simp [List.length_take_le 200 text]

/-- Witness for the amended claim C8 at status 404 with a 300-character
body: the snippet is truncated to 200 characters. -/
theorem claim_C8_amended_transport_errors_witness :
    execute_loop (α := Nat)
        { strict := false, max_retries_429 := 2, max_wait_seconds := 60 }
        (fun _ => none) 1
        [.http 404 none (List.replicate 300 'x') .notDict] (initState 0 none) =
      .err (.transport 404 ((List.replicate 300 'x').take 200))
        { now := 0, retries := 0, requests := 1, sleeps := [], costs := [1],
          bucket := none } ∧
    ((List.replicate 300 'x').take 200).length ≤ 200 := by
  have h := claim_C8_amended_transport_errors
    (α := Nat) (β := Nat)
    { strict := false, max_retries_429 := 2, max_wait_seconds := 60 }
    (fun _ => none) 1 [] [] (initState 0 none) none
    (List.replicate 300 'x') [] .notDict .notDict 404 rfl
    (by decide) (by decide)
  exact ⟨h.1, h.2.2.2.2⟩

/-- Helper: a failing local-budget check short-circuits the executor loop
for any script, before any request is issued. -/
theorem execute_loop_consume_fail {α : Type} (cfg : ExecCfg)
    (iso : String → Option ℚ) (cost : ℚ) (script : List (Response α))
    (st st1 : ExecState) (e : LocalRateLimitErr)
    (h : consume_local_budget cfg.max_wait_seconds cost st = (st1, some e)) :
    execute_loop cfg iso cost script st = .err (.localRateLimit e) st1 := by
  cases script <;> simp [execute_loop, h]

/-- Claim C9: a token bucket with capacity 10000 and refill rate 10000/60
asked to consume 20000 under `max_wait_seconds = 5` rejects the cost, so
`execute` fails with the bucket's `LocalRateLimitError` unmodified and
issues zero HTTP exchanges — whatever responses the transport would have
given and whatever the bucket's current level and refill timestamp are. -/
theorem claim_C9_local_throttle_rejects_before_transport
    {α : Type} (iso : String → Option ℚ) (script : List (Response α))
    (strict : Bool) (mr : Nat) (tokens last_refill t0 : ℚ) :
    ∃ e : LocalRateLimitErr,
      GraphQLClient.execute
          { strict := strict, max_retries_429 := mr, max_wait_seconds := 5 }
          iso (some 20000) script
          (initState t0 (some { capacity := 10000, refill_rate := 10000 / 60,
                                tokens := tokens, last_refill := last_refill })) =
        .err (.localRateLimit e)
          { now := t0, retries := 0, requests := 0, sleeps := [],
            costs := [20000],
            bucket := some { capacity := 10000, refill_rate := 10000 / 60,
                             tokens := tokens, last_refill := last_refill } } ∧
      e.estimated_cost = 20000 ∧ e.max_wait_seconds = 5 ∧ 5 < e.wait_seconds := by
  have hav : min (10000 : ℚ)
      (tokens + (t0 - last_refill) * (10000 / 60)) ≤ 10000 := min_le_left _ _
  have hrate : (0 : ℚ) < 10000 / 60 := by norm_num
  have hwait : (5 : ℚ) <
      (20000 - min (10000 : ℚ) (tokens + (t0 - last_refill) * (10000 / 60))) /
        (10000 / 60) := by
    rw [lt_div_iff₀ hrate]
    linarith
  refine ⟨{ estimated_cost := 20000,
            wait_seconds :=
              (20000 - min (10000 : ℚ)
                (tokens + (t0 - last_refill) * (10000 / 60))) / (10000 / 60),
            max_wait_seconds := 5 }, ?_, rfl, rfl, hwait⟩
  have hcost : ((normalize_cost (some 20000) : Int) : ℚ) = 20000 := by
    norm_num [normalize_cost]
  unfold GraphQLClient.execute
  rw [hcost]
  refine execute_loop_consume_fail _ _ _ _ _ _ _ ?_
  unfold consume_local_budget TokenBucket.consume initState
  simp only
  rw [if_neg (by push_neg; linarith), if_pos (by simpa using hwait)]
  simp

/-- Helper: the local-budget call records exactly the cost it is passed. -/
theorem consume_local_budget_costs (max_wait cost : ℚ) (st : ExecState) :
    ((consume_local_budget max_wait cost st).1).costs = st.costs ++ [cost] := by
  unfold consume_local_budget
  cases hb : st.bucket with
  | none => simp [hb]
  | some b =>
    rcases hc : b.consume cost max_wait st.now with e | ⟨slept, b2, now2⟩ <;>
      simp [hb, hc]

/-- Helper: over one whole executor call the costs trace grows only by
copies of the single cost value computed before the loop. -/
theorem execute_loop_costs_replicate {α : Type} (cfg : ExecCfg)
    (iso : String → Option ℚ) (cost : ℚ) :
    ∀ (script : List (Response α)) (st : ExecState),
      ∃ k, (outState (execute_loop cfg iso cost script st)).costs =
        st.costs ++ List.replicate k cost := by
  intro script
  induction script with
  | nil =>
    intro st
    rcases h : consume_local_budget cfg.max_wait_seconds cost st with ⟨st1, oe⟩
    have hc0 := consume_local_budget_costs cfg.max_wait_seconds cost st
    rw [h] at hc0
    have hc : st1.costs = st.costs ++ [cost] := hc0
    cases oe <;> exact ⟨1, by simp [execute_loop, h, outState, hc]⟩
  | cons r rest ih =>
    intro st
    rcases h : consume_local_budget cfg.max_wait_seconds cost st with ⟨st1, oe⟩
    have hc0 := consume_local_budget_costs cfg.max_wait_seconds cost st
    rw [h] at hc0
    have hc : st1.costs = st.costs ++ [cost] := hc0
    cases oe with
    | some e => exact ⟨1, by simp [execute_loop, h, outState, hc]⟩
    | none =>
      cases r with
      | netError msg => exact ⟨1, by simp [execute_loop, h, outState, hc]⟩
      | http status hdr text body =>
        by_cases h429 : status = 429
        · rcases hp : parse_retry_after iso st1.now hdr with _ | ⟨t, v⟩
          · exact ⟨1, by simp [execute_loop, h, h429, hp, outState, hc]⟩
          · rcases hd : decide_429 cfg.max_retries_429 cfg.max_wait_seconds
                st1.retries t st1.now hdr with e | w
            · exact ⟨1, by simp [execute_loop, h, h429, hp, hd, outState, hc]⟩
            · have key : ∀ S : ExecState, S.costs = st.costs ++ [cost] →
                  ∃ k, (outState (execute_loop cfg iso cost rest S)).costs =
                    st.costs ++ List.replicate k cost := by
                intro S hS
                obtain ⟨k, hk⟩ := ih S
                exact ⟨k + 1, by
                  rw [hk, hS]
                  simp [List.replicate_succ]⟩
              simp only [execute_loop, h, h429, hp, hd]
              refine key _ ?_
              split <;> exact hc
        · by_cases h5 : 500 ≤ status
          · exact ⟨1, by simp [execute_loop, h, h429, h5, outState, hc]⟩
          · by_cases h4 : 400 ≤ status
            · exact ⟨1, by simp [execute_loop, h, h429, h5, h4, outState, hc]⟩
            · cases body with
              | malformed =>
                exact ⟨1, by simp [execute_loop, h, h429, h5, h4, outState, hc]⟩
              | notDict =>
                exact ⟨1, by simp [execute_loop, h, h429, h5, h4, outState, hc]⟩
              | dict pdata errors extensions =>
                by_cases hs : cfg.strict && errorsTruthy errors
                · exact ⟨1, by simp [execute_loop, h, h429, h5, h4, hs,
                    outState, hc]⟩
                · exact ⟨1, by simp [execute_loop, h, h429, h5, h4, hs,
                    outState, hc]⟩

/-- Claim C10: the cost handed to the local throttle by `execute` is
normalized before use — a missing estimated cost becomes 1, a negative one
becomes 0, so the normalized cost is never negative — and every cost the
throttle is asked to consume during the call is that normalized value. -/
theorem claim_C10_cost_normalized_before_throttle :
    normalize_cost none = 1 ∧
    (∀ c : Int, c < 0 → normalize_cost (some c) = 0) ∧
    (∀ ec : Option Int, 0 ≤ normalize_cost ec) ∧
    (∀ (α : Type) (cfg : ExecCfg) (iso : String → Option ℚ) (ec : Option Int)
        (script : List (Response α)) (st : ExecState),
      ∃ k, (outState (GraphQLClient.execute cfg iso ec script st)).costs =
        st.costs ++ List.replicate k ((normalize_cost ec : Int) : ℚ)) := by
  refine ⟨rfl, ?_, ?_, ?_⟩
  · intro c hc
    simp [normalize_cost, hc]
  · intro ec
    cases ec with
    | none => simp [normalize_cost]
    | some c =>
      by_cases hc : c < 0 <;> simp [normalize_cost, hc]
      omega
  · intro α cfg iso ec script st
    exact execute_loop_costs_replicate cfg iso _ script st

/-- Witness for claim C10: a negative estimated cost (-5) is normalized to
0 before the throttle sees it. -/
theorem claim_C10_cost_normalized_before_throttle_witness :
    normalize_cost (some (-5)) = 0 ∧ (0 : Int) ≤ normalize_cost (some (-5)) :=
  ⟨claim_C10_cost_normalized_before_throttle.2.1 (-5) (by norm_num),
   claim_C10_cost_normalized_before_throttle.2.2.1 (some (-5))⟩

/-- Helper: a Retry-After header of "2" parses as delta-seconds, two
seconds after the injected clock. -/
theorem parse_retry_after_two (iso : String → Option ℚ) (now : ℚ) :
    parse_retry_after iso now (some "2") = some (now + 2, "delta-seconds") := by
  simp [parse_retry_after, show py_strip "2" = "2" from by decide,
    show (("2" : String) = "") = False from by simp,
    show py_isdigit "2" = true from by decide,
    show py_int "2" = 2 from by decide]

/-- Helper: with a two-second wait within the cap and retries remaining,
the 429 decision is to sleep two seconds and retry. -/
theorem decide_429_sleep_two (mr : Nat) (mw : ℚ) (retries : Nat) (now : ℚ)
    (hdr : Option String) (hmw : 2 ≤ mw) (hr : retries < mr) :
    decide_429 mr mw retries (now + 2) now hdr = .sleepRetry 2 := by
  unfold decide_429
  rw [show now + 2 - now = (2 : ℚ) from by ring]
  rw [if_neg (by push_neg; exact hmw), if_neg (by simp [hr])]
  norm_num

/-- Helper: with a two-second wait within the cap but retries exhausted,
the 429 decision is the attempts-exhausted `RateLimitError` (it carries
`wait_seconds` but no `max_wait_seconds`). -/
theorem decide_429_exhausted_two (mr : Nat) (mw : ℚ) (retries : Nat)
    (now : ℚ) (hdr : Option String) (hmw : 2 ≤ mw) (hr : ¬ retries < mr) :
    decide_429 mr mw retries (now + 2) now hdr =
      .fail { retry_after := some (now + 2), attempts := retries + 1,
              header_value := hdr, wait_seconds := some 2 } := by
  unfold decide_429
  rw [show now + 2 - now = (2 : ℚ) from by ring]
  rw [if_neg (by push_neg; exact hmw), if_pos (by simp [hr])]

/-- Claim C3: with a 429 at attempt 1 whose Retry-After resolves two
seconds in the future, `max_retries = 1` and `max_wait_seconds ≥ 2`, the
executor sleeps two seconds, retries exactly once, and returns the second
response's parsed data; and if the second response is again such a 429, the
call fails with a `RateLimitError` whose attempts field equals 2. -/
theorem claim_C3_429_retry_scenario
    {α : Type} (iso : String → Option ℚ) (mw : ℚ) (t0 cost : ℚ)
    (text1 text2 text3 : List Char) (b1 b3 : GqlBody α)
    (d2 ext2 : Option α) (hdr2 : Option String)
    (rest rest2 : List (Response α))
    (hmw : 2 ≤ mw) :
    execute_loop { strict := false, max_retries_429 := 1, max_wait_seconds := mw }
        iso cost
        (.http 429 (some "2") text1 b1 ::
          .http 200 hdr2 text2 (.dict d2 none ext2) :: rest)
        (initState t0 none) =
      .ok { pdata := d2, errors := none, extensions := ext2 }
        { now := t0 + 2, retries := 1, requests := 2, sleeps := [2],
          costs := [cost, cost], bucket := none } ∧
    execute_loop { strict := false, max_retries_429 := 1, max_wait_seconds := mw }
        iso cost
        (.http 429 (some "2") text1 b1 ::
          .http 429 (some "2") text3 b3 :: rest2)
        (initState t0 none) =
      .err (.rateLimit { retry_after := some (t0 + 2 + 2), attempts := 2,
                         header_value := some "2", wait_seconds := some 2,
                         max_wait_seconds := none })
        { now := t0 + 2, retries := 1, requests := 2, sleeps := [2],
          costs := [cost, cost], bucket := none } := by
  have hsleep := decide_429_sleep_two 1 mw 0 t0 (some "2") hmw (by norm_num)
  have hfail := decide_429_exhausted_two 1 mw 1 (t0 + 2) (some "2") hmw
    (by norm_num)
  constructor
  · simp [execute_loop, consume_local_budget, initState, parse_retry_after_two,
      hsleep, hfail]
  · simp [execute_loop, consume_local_budget, initState, parse_retry_after_two,
      hsleep, hfail]

/-- Witness for claim C3 at concrete values: clock starting at 0,
`max_wait_seconds = 60`, cost 1; the run sleeps 2 seconds, issues two
requests and returns the second response's data. -/
theorem claim_C3_429_retry_scenario_witness :
    execute_loop (α := Nat)
        { strict := false, max_retries_429 := 1, max_wait_seconds := 60 }
        (fun _ => none) 1
        [.http 429 (some "2") [] .notDict,
         .http 200 none [] (.dict (some 7) none none)]
        (initState 0 none) =
      .ok { pdata := some 7, errors := none, extensions := none }
        { now := 2, retries := 1, requests := 2, sleeps := [2],
          costs := [1, 1], bucket := none } ∧
    execute_loop (α := Nat)
        { strict := false, max_retries_429 := 1, max_wait_seconds := 60 }
        (fun _ => none) 1
        [.http 429 (some "2") [] .notDict, .http 429 (some "2") [] .notDict]
        (initState 0 none) =
      .err (.rateLimit { retry_after := some 4, attempts := 2,
                         header_value := some "2", wait_seconds := some 2,
                         max_wait_seconds := none })
        { now := 2, retries := 1, requests := 2, sleeps := [2],
          costs := [1, 1], bucket := none } := by
  have h := claim_C3_429_retry_scenario (α := Nat) (fun _ => none) 60 0 1
    [] [] [] .notDict .notDict (some 7) none none [] [] (by norm_num)
  constructor
  · have h1 := h.1
    norm_num at h1
    exact h1
  · have h2 := h.2
    norm_num at h2
    exact h2

/-- Helper: every outer page request is either the starting cursor of the
(sub-)run or a cursor not yet in the seen set when it was issued. -/
theorem outer_requested_mem (flags : SchemaFlags) (cloud : String)
    (oO : Option String → Except PagErr (ConnectionShape JiraProjectNode))
    (nO : JiraProjectNode → String → Except PagErr (ConnectionShape OpsgenieTeamNode))
    (nfuel : Nat) :
    ∀ (fuel : Nat) (after : Option String) (seen : List String)
      (x : Option String),
      x ∈ (outer_projects_loop flags cloud oO nO nfuel fuel after seen).requested →
      x = after ∨ ∃ c, x = some c ∧ c ∉ seen := by
  intro fuel
  induction fuel with
  | zero =>
    intro after seen x hx
    simp [outer_projects_loop] at hx
  | succ fuel ih =>
    intro after seen x hx
    simp only [outer_projects_loop] at hx
    rcases ho : oO after with e | conn <;> simp only [ho] at hx
    · exact .inl (by simpa using hx)
    · rcases hpe : process_edges flags cloud nO nfuel conn.edges with
        ⟨events, yields, oerr⟩
      cases oerr with
      | some e =>
        simp only [hpe] at hx
        exact .inl (by simpa using hx)
      | none =>
        simp only [hpe] at hx
        rcases hna : next_after_from_pageinfo flags.pageinfo_has_end_cursor
            conn.page_info.has_next_page conn.page_info.end_cursor
            flags.projects_edge_has_cursor (conn.edges.map (·.cursor))
            "jira.projects" with msg | oc
        · simp only [hna] at hx
          exact .inl (by simpa using hx)
        · cases oc with
          | none =>
            simp only [hna] at hx
            exact .inl (by simpa using hx)
          | some c =>
            simp only [hna] at hx
            by_cases hc : c ∈ seen
            · rw [if_pos hc] at hx
              exact .inl (by simpa using hx)
            · rw [if_neg hc] at hx
              simp at hx
              rcases hx with hx | hx
              · exact .inl hx
              · rcases ih (some c) (c :: seen) x hx with h1 | ⟨c', hq, hn⟩
                · exact .inr ⟨c, h1, hc⟩
                · exact .inr ⟨c', hq,
                    fun hmem => hn (List.mem_cons_of_mem _ hmem)⟩

/-- Helper: starting from a cursor already accounted for in the seen set
(or from the initial absent cursor), the outer loop never requests the same
cursor twice. -/
theorem outer_requested_nodup (flags : SchemaFlags) (cloud : String)
    (oO : Option String → Except PagErr (ConnectionShape JiraProjectNode))
    (nO : JiraProjectNode → String → Except PagErr (ConnectionShape OpsgenieTeamNode))
    (nfuel : Nat) :
    ∀ (fuel : Nat) (after : Option String) (seen : List String),
      (after = none ∨ ∃ a, after = some a ∧ a ∈ seen) →
      (outer_projects_loop flags cloud oO nO nfuel fuel after seen).requested.Nodup := by
  intro fuel
  induction fuel with
  | zero =>
    intro after seen _
    simp [outer_projects_loop]
  | succ fuel ih =>
    intro after seen hafter
    simp only [outer_projects_loop]
    rcases ho : oO after with e | conn <;> simp only [ho]
    · simp
    · rcases hpe : process_edges flags cloud nO nfuel conn.edges with
        ⟨events, yields, oerr⟩
      cases oerr with
      | some e => simp [hpe]
      | none =>
        simp only [hpe]
        rcases hna : next_after_from_pageinfo flags.pageinfo_has_end_cursor
            conn.page_info.has_next_page conn.page_info.end_cursor
            flags.projects_edge_has_cursor (conn.edges.map (·.cursor))
            "jira.projects" with msg | oc
        · simp [hna]
        · cases oc with
          | none => simp [hna]
          | some c =>
            simp only [hna]
            by_cases hc : c ∈ seen
            · simp [hc]
            · rw [if_neg hc]
              simp only [List.nodup_cons]
              refine ⟨?_, ih (some c) (c :: seen)
                (.inr ⟨c, rfl, List.mem_cons_self c seen⟩)⟩
              intro hmem
              rcases outer_requested_mem flags cloud oO nO nfuel fuel (some c)
                  (c :: seen) after hmem with h1 | ⟨c', hq, hn⟩
              · rcases hafter with h2 | ⟨a, h2, ha⟩
                · rw [h2] at h1
                  exact Option.noConfusion h1
                · rw [h2] at h1
                  exact hc (by
                    have : a = c := Option.some.inj h1
                    rw [← this]
                    exact ha)
              · rcases hafter with h2 | ⟨a, h2, ha⟩
                · rw [h2] at hq
                  exact Option.noConfusion hq
                · rw [h2] at hq
                  have : a = c' := Option.some.inj hq
                  exact hn (List.mem_cons_of_mem _ (this ▸ ha))

/-- Helper: every offset requested by the REST paginator was outside the
seen set when it was issued. -/
theorem rest_requested_mem {α ρ : Type}
    (oracle : Nat → Except PagErr (RestPage α))
    (emit : α → Except String (Option ρ)) (page_size : Nat) :
    ∀ (fuel : Nat) (seen : List Nat) (start_at : Nat) (x : Nat),
      x ∈ (iter_projects_via_rest_loop oracle emit page_size fuel seen
        start_at).requested →
      x ∉ seen := by
  intro fuel
  induction fuel with
  | zero =>
    intro seen s x hx
    simp [iter_projects_via_rest_loop] at hx
  | succ fuel ih =>
    intro seen s x hx
    simp only [iter_projects_via_rest_loop] at hx
    by_cases hs : s ∈ seen
    · rw [if_pos hs] at hx
      simp at hx
    · rw [if_neg hs] at hx
      rcases ho : oracle s with e | page <;> simp only [ho] at hx
      · simp at hx
        exact hx ▸ hs
      · rcases hev : emit_values emit page.values with ⟨ys, oerr⟩
        cases oerr with
        | some msg =>
          simp only [hev] at hx
          simp at hx
          exact hx ▸ hs
        | none =>
          simp only [hev] at hx
          rcases hd : rest_offset_decision page_size s page.is_last page.total
              page.values.length with _ | next | msg <;> simp only [hd] at hx
          · simp at hx
            exact hx ▸ hs
          · simp at hx
            rcases hx with hx | hx
            · exact hx ▸ hs
            · intro hmem
              exact ih (s :: seen) next x hx (List.mem_cons_of_mem _ hmem)
          · simp at hx
            exact hx ▸ hs

/-- Helper: the REST paginator never requests the same offset twice. -/
theorem rest_requested_nodup {α ρ : Type}
    (oracle : Nat → Except PagErr (RestPage α))
    (emit : α → Except String (Option ρ)) (page_size : Nat) :
    ∀ (fuel : Nat) (seen : List Nat) (start_at : Nat),
      (iter_projects_via_rest_loop oracle emit page_size fuel seen
        start_at).requested.Nodup := by
  intro fuel
  induction fuel with
  | zero =>
    intro seen s
    simp [iter_projects_via_rest_loop]
  | succ fuel ih =>
    intro seen s
    simp only [iter_projects_via_rest_loop]
    by_cases hs : s ∈ seen
    · simp [hs]
    · rw [if_neg hs]
      rcases ho : oracle s with e | page <;> simp only [ho]
      · simp
      · rcases hev : emit_values emit page.values with ⟨ys, oerr⟩
        cases oerr with
        | some msg => simp [hev]
        | none =>
          simp only [hev]
          rcases hd : rest_offset_decision page_size s page.is_last page.total
              page.values.length with _ | next | msg <;> simp only [hd]
          · simp
          · simp only [List.nodup_cons]
            refine ⟨?_, ih (s :: seen) next⟩
            intro hmem
            exact rest_requested_mem oracle emit page_size fuel (s :: seen)
              next s hmem (List.mem_cons_self s seen)
          · simp

/-- Claim C2: in the cursor paginator and the offset paginator alike, a
computed next page key (cursor, respectively startAt offset) equal to a
value already requested in the same call raises `SerializationError` with
no further request issued, and no run ever silently requests the same page
key twice: from the initial state the full list of requested keys is
duplicate-free. -/
theorem claim_C2_repeated_page_key_aborts :
    (∀ (flags : SchemaFlags) (cloud : String)
        (oO : Option String → Except PagErr (ConnectionShape JiraProjectNode))
        (nO : JiraProjectNode → String →
          Except PagErr (ConnectionShape OpsgenieTeamNode))
        (nfuel fuel : Nat),
      (outer_projects_loop flags cloud oO nO nfuel fuel none
        []).requested.Nodup) ∧
    (∀ (flags : SchemaFlags) (cloud : String)
        (oO : Option String → Except PagErr (ConnectionShape JiraProjectNode))
        (nO : JiraProjectNode → String →
          Except PagErr (ConnectionShape OpsgenieTeamNode))
        (nfuel fuel : Nat) (after : Option String) (seen : List String)
        (conn : ConnectionShape JiraProjectNode) (events : List PagEvent)
        (yields : List CanonicalProjectWithOpsgenieTeams) (c : String),
      oO after = .ok conn →
      process_edges flags cloud nO nfuel conn.edges = (events, yields, none) →
      next_after_from_pageinfo flags.pageinfo_has_end_cursor
          conn.page_info.has_next_page conn.page_info.end_cursor
          flags.projects_edge_has_cursor (conn.edges.map (·.cursor))
          "jira.projects" = .ok (some c) →
      c ∈ seen →
      outer_projects_loop flags cloud oO nO nfuel (fuel + 1) after seen =
        { requested := [after],
          events := PagEvent.outerReq after :: events,
          yields := yields,
          status := .failed (.serialization
            "Pagination cursor repeated; aborting to prevent infinite loop") }) ∧
    (∀ (α ρ : Type) (oracle : Nat → Except PagErr (RestPage α))
        (emit : α → Except String (Option ρ)) (page_size fuel : Nat)
        (seen : List Nat) (start_at : Nat),
      (iter_projects_via_rest_loop oracle emit page_size fuel seen
        start_at).requested.Nodup) ∧
    (∀ (α ρ : Type) (oracle : Nat → Except PagErr (RestPage α))
        (emit : α → Except String (Option ρ)) (page_size fuel : Nat)
        (seen : List Nat) (start_at : Nat),
      start_at ∈ seen →
      iter_projects_via_rest_loop oracle emit page_size (fuel + 1) seen
          start_at =
        { requested := [], yields := [],
          status := .failed (.serialization
            "Pagination startAt repeated; aborting to prevent infinite loop") }) := by
  refine ⟨?_, ?_, ?_, ?_⟩
  · intro flags cloud oO nO nfuel fuel
    exact outer_requested_nodup flags cloud oO nO nfuel fuel none [] (.inl rfl)
  · intro flags cloud oO nO nfuel fuel after seen conn events yields c ho hpe
      hna hc
    simp [outer_projects_loop, ho, hpe, hna, hc]
  · intro α ρ oracle emit page_size fuel seen start_at
    exact rest_requested_nodup oracle emit page_size fuel seen start_at
  · intro α ρ oracle emit page_size fuel seen start_at hs
    simp [iter_projects_via_rest_loop, hs]

/-- Witness for claim C2: a concrete server that repeats cursor "A"
immediately is aborted with `SerializationError` after a single request,
and a repeated concrete offset aborts with no request at all. -/
theorem claim_C2_repeated_page_key_aborts_witness :
    outer_projects_loop scenFlags "cloud-123"
        (fun _ =>
          .ok { page_info := { has_next_page := true, end_cursor := some "A" },
                edges := [] })
        (fun _ _ => .error (.serialization "unused")) 0 1 none ["A"] =
      { requested := [none], events := [PagEvent.outerReq none], yields := [],
        status := .failed (.serialization
          "Pagination cursor repeated; aborting to prevent infinite loop") } ∧
    iter_projects_via_rest_loop (α := Nat) (ρ := Nat)
        (fun _ => .error (.serialization "unused"))
        (fun _ => .ok none) 50 1 [0] 0 =
      { requested := [], yields := [],
        status := .failed (.serialization
          "Pagination startAt repeated; aborting to prevent infinite loop") } := by
  constructor
  · have h := claim_C2_repeated_page_key_aborts.2.1 scenFlags "cloud-123"
      (fun _ =>
        .ok { page_info := { has_next_page := true, end_cursor := some "A" },
              edges := [] })
      (fun _ _ => .error (.serialization "unused")) 0 0 none ["A"]
      { page_info := { has_next_page := true, end_cursor := some "A" },
        edges := [] } [] [] "A" rfl rfl rfl (by simp)
    simpa using h
  · exact claim_C2_repeated_page_key_aborts.2.2.2 Nat Nat
      (fun _ => .error (.serialization "unused")) (fun _ => .ok none) 50 0 [0] 0
      (by simp)

/-- Helper: every nested page request is either the sub-run's starting
cursor or a cursor outside the seen set when it was issued. -/
theorem nested_requested_mem (flags : SchemaFlags)
    (oracle : JiraProjectNode → String →
      Except PagErr (ConnectionShape OpsgenieTeamNode))
    (project : JiraProjectNode) :
    ∀ (fuel : Nat) (after : String) (seen : List String) (x : String),
      x ∈ (paginate_opsgenie_teams_loop flags oracle project fuel after
        seen).requested →
      x = after ∨ x ∉ seen := by
  intro fuel
  induction fuel with
  | zero =>
    intro after seen x hx
    simp [paginate_opsgenie_teams_loop] at hx
  | succ fuel ih =>
    intro after seen x hx
    simp only [paginate_opsgenie_teams_loop] at hx
    split at hx
    · simp at hx
    · rcases ho : oracle project after with e | conn <;> simp only [ho] at hx
      · exact .inl (by simpa using hx)
      · rcases hna : next_after_from_pageinfo flags.pageinfo_has_end_cursor
            conn.page_info.has_next_page conn.page_info.end_cursor
            flags.opsgenie_edge_has_cursor (conn.edges.map (·.cursor))
            ("jira.project[" ++ project.key ++ "].opsgenieTeams") with
          msg | oc
        · simp only [hna] at hx
          exact .inl (by simpa using hx)
        · cases oc with
          | none =>
            simp only [hna] at hx
            exact .inl (by simpa using hx)
          | some c =>
            simp only [hna] at hx
            by_cases hc : c ∈ seen
            · rw [if_pos hc] at hx
              exact .inl (by simpa using hx)
            · rw [if_neg hc] at hx
              simp at hx
              rcases hx with hx | hx
              · exact .inl hx
              · rcases ih c (c :: seen) x hx with h1 | h1
                · exact .inr (h1 ▸ hc)
                · exact .inr (fun hmem => h1 (List.mem_cons_of_mem _ hmem))

/-- Helper: started from a cursor accounted for in its own seen set, the
nested loop never requests the same cursor twice. -/
theorem nested_requested_nodup (flags : SchemaFlags)
    (oracle : JiraProjectNode → String →
      Except PagErr (ConnectionShape OpsgenieTeamNode))
    (project : JiraProjectNode) :
    ∀ (fuel : Nat) (after : String) (seen : List String),
      after ∈ seen →
      (paginate_opsgenie_teams_loop flags oracle project fuel after
        seen).requested.Nodup := by
  intro fuel
  induction fuel with
  | zero =>
    intro after seen _
    simp [paginate_opsgenie_teams_loop]
  | succ fuel ih =>
    intro after seen hafter
    simp only [paginate_opsgenie_teams_loop]
    split
    · simp
    · rcases ho : oracle project after with e | conn <;> simp only [ho]
      · simp
      · rcases hna : next_after_from_pageinfo flags.pageinfo_has_end_cursor
            conn.page_info.has_next_page conn.page_info.end_cursor
            flags.opsgenie_edge_has_cursor (conn.edges.map (·.cursor))
            ("jira.project[" ++ project.key ++ "].opsgenieTeams") with
          msg | oc
        · simp [hna]
        · cases oc with
          | none => simp [hna]
          | some c =>
            simp only [hna]
            by_cases hc : c ∈ seen
            · simp [hc]
            · rw [if_neg hc]
              simp only [List.nodup_cons]
              refine ⟨?_, ih c (c :: seen) (List.mem_cons_self c seen)⟩
              intro hmem
              rcases nested_requested_mem flags oracle project fuel c
                  (c :: seen) after hmem with h1 | h1
              · exact hc (h1 ▸ hafter)
              · exact h1 (List.mem_cons_of_mem _ hafter)

/-- Claim C5: in two-level cursor pagination a parent whose nested
connection reports a further page is fully drained through a separate
sub-loop before the parent record is yielded and before the next outer page
is fetched, and records are yielded in outer server order with each
parent's nested items appended in page-fetch order.  First conjunct: on the
spec's two-page scenario the full event trace is exactly — outer page-1
request, the nested drain request for parent A, the yields of A (with teams
1, 2 from the embedded page then team 3 from the drained page) and B, only
then the outer page-2 request, then the yield of C.  Second conjunct: the
nested sub-loop's own seen-cursor set never lets it request the same cursor
twice, for any parent, server behaviour and fuel. -/
theorem claim_C5_nested_drain_order :
    outer_projects_loop scenFlags "cloud-123" scenOuterOracle
        scenNestedOracle 1 2 none [] =
      { requested := [none, some "P1"],
        events := [PagEvent.outerReq none,
                   PagEvent.nestedReq "A" "TA1",
                   PagEvent.yieldRec recA,
                   PagEvent.yieldRec recB,
                   PagEvent.outerReq (some "P1"),
                   PagEvent.yieldRec recC],
        yields := [recA, recB, recC],
        status := .done } ∧
    (∀ (flags : SchemaFlags)
        (oracle : JiraProjectNode → String →
          Except PagErr (ConnectionShape OpsgenieTeamNode))
        (project : JiraProjectNode)
        (initial : ConnectionShape OpsgenieTeamNode) (fuel : Nat),
      (paginate_opsgenie_teams flags oracle project initial
        fuel).requested.Nodup) := by
  constructor
  · decide
  · intro flags oracle project initial fuel
    unfold paginate_opsgenie_teams
    rcases hna : next_after_from_pageinfo flags.pageinfo_has_end_cursor
        initial.page_info.has_next_page initial.page_info.end_cursor
        flags.opsgenie_edge_has_cursor (initial.edges.map (·.cursor))
        ("jira.project[" ++ project.key ++ "].opsgenieTeams") with msg | oc
    · simp
    · cases oc with
      | none => simp
      | some a =>
        exact nested_requested_nodup flags oracle project fuel a [a]
          (List.mem_cons_self a [])

end AtlGql
